import Mathlib

/-!
Verification of the bulk fetch-and-resume job runner
(`get_lightkurve_data.py`) and the label-standardization script
(`standardize_dispositions.py`) of the Exchron archive repository.

The embedding models the filesystem as an association list from paths to
contents, and the external fetch (network search, download, conversion)
as an oracle whose outcome per identifier is either found data, a
not-found answer, or a raised exception.
-/

/-- Filesystem model: association list from file path to file content. -/
abbrev FS := List (String × String)

/-- `os.path.exists`. -/
def fsExists (p : String) (fs : FS) : Bool :=
  fs.any (fun e => e.1 = p)

/-- Writing a file: overwrite any existing entry at that path. -/
def fsWrite (p c : String) (fs : FS) : FS :=
  (p, c) :: fs.filter (fun e => e.1 ≠ p)

/-- Reading a file's content. -/
def fsRead (p : String) (fs : FS) : Option String :=
  (fs.find? (fun e => e.1 = p)).map (fun e => e.2)

/-- Python `str.strip()`: drop whitespace from both ends. -/
def pyStrip (s : String) : String :=
  ⟨((s.data.dropWhile Char.isWhitespace).reverse.dropWhile Char.isWhitespace).reverse⟩

/-- Fuel-driven core of Python `str.replace`: replace every non-overlapping
occurrence of `pat` (non-empty) left to right. -/
def replaceFuel (pat rep : List Char) : Nat → List Char → List Char
  | 0, l => l
  | _ + 1, [] => []
  | fuel + 1, c :: rest =>
    if pat ≠ [] ∧ List.isPrefixOf pat (c :: rest) then
      rep ++ replaceFuel pat rep fuel (rest.drop (pat.length - 1))
    else
      c :: replaceFuel pat rep fuel rest

/-- Python `str.replace` for a non-empty pattern. -/
def pyReplace (s pat rep : String) : String :=
  if pat.isEmpty then s else ⟨replaceFuel pat.data rep.data s.data.length s.data⟩

/-- `os.path.basename`: the part after the last slash. -/
def basenameStr (s : String) : String :=
  ⟨(s.data.foldl (fun acc c => if c = '/' then [] else c :: acc) []).reverse⟩

/-- The outcome of the external fetch pipeline (search, download,
conversion) for one identifier: data found, nothing found, or an
exception raised somewhere in the pipeline. -/
inductive FetchOutcome where
  | found (data : String)
  | notFound
  | exn (msg : String)
deriving Repr, DecidableEq

/-- The per-identifier result dict built by `download_lightkurve_data`. -/
structure FetchResult where
  kepler_id : String
  success : Bool
  output_file : Option String
  status : String
deriving Repr, DecidableEq

/-- The output artifact path: `os.path.join(output_dir, f"kepler_{id}_lightkurve.csv")`. -/
def outputFileName (dir id : String) : String :=
  dir ++ "/kepler_" ++ id ++ "_lightkurve.csv"

/-- Content written by the worker: the downloaded frame with the
identifier appended as a column (`df['kepler_id'] = kepler_id_clean`). -/
def csvContent (data kid : String) : String :=
  data ++ ",kepler_id=" ++ kid

/-- The `try` body of `download_lightkurve_data`: check for an existing
file, otherwise search; an oracle exception aborts the body. -/
def download_body (kepler_id dir : String) (fs : FS) (oracle : String → FetchOutcome) :
    Except String (FetchResult × FS) :=
  let clean := pyStrip kepler_id
  let out := outputFileName dir clean
  if fsExists out fs then
    .ok ({ kepler_id := clean, success := true, output_file := some out,
           status := "Skipped (already exists)" }, fs)
  else
    match oracle clean with
    | .notFound =>
      .ok ({ kepler_id := clean, success := false, output_file := none,
             status := "No light curve found" }, fs)
    | .exn msg => .error msg
    | .found data =>
      .ok ({ kepler_id := clean, success := true, output_file := some out,
             status := "Downloaded" }, fsWrite out (csvContent data clean) fs)

/-- `download_lightkurve_data`: the body wrapped in `try`/`except`, the
handler turning any exception into a failure result. -/
def download_lightkurve_data (kepler_id dir : String) (fs : FS)
    (oracle : String → FetchOutcome) : FetchResult × FS :=
  match download_body kepler_id dir fs oracle with
  | .ok r => r
  | .error e =>
    ({ kepler_id := pyStrip kepler_id, success := false, output_file := none,
       status := "Error: " ++ e }, fs)

/-- The result dict built in `main`'s dispatch loop when `future.result()`
itself raises. -/
def dispatcherFallback (kid msg : String) : FetchResult :=
  { kepler_id := kid, success := false, output_file := none,
    status := "Exception: " ++ msg }

/-- Identifier recovered from an artifact file name in `main`:
`basename(path).replace("kepler_", "").replace("_lightkurve.csv", "")`. -/
def extractId (path : String) : String :=
  pyReplace (pyReplace (basenameStr path) "kepler_" "") "_lightkurve.csv" ""

/-- The prior-summary input of a run: `none` when the summary file does
not exist, `some (.error e)` when it exists but `pd.read_csv` raises,
`some (.ok rs)` when it parses to the result rows `rs`. -/
abbrev PriorSummary := Option (Except String (List FetchResult))

/-- `main`'s loading of previous results: any parse failure (and absence)
silently yields the empty list. -/
def loadExisting (prior : PriorSummary) : List FetchResult :=
  match prior with
  | some (.ok rs) => rs
  | _ => []

/-- `save_interval = 50`: save progress every 50 completed downloads. -/
def save_interval : Nat := 50

/-- `max_workers = 20`. -/
def max_workers : Nat := 20

/-- The dispatch loop of `main`: run the worker on each remaining
identifier, append its result, and write the full current summary to
disk whenever the completed count hits a multiple of the interval.
Returns the accumulated results, the final filesystem, and the list of
summary snapshots written during the loop. -/
def dispatchLoop (dir : String) (oracle : String → FetchOutcome) (interval : Nat) :
    List String → List FetchResult → FS → Nat → List (List FetchResult) →
      List FetchResult × FS × List (List FetchResult)
  | [], results, fs, _, writes => (results, fs, writes)
  | kid :: rest, results, fs, count, writes =>
    let step := download_lightkurve_data kid dir fs oracle
    let results1 := results ++ [step.1]
    let count1 := count + 1
    let writes1 := if count1 % interval = 0 then writes ++ [results1] else writes
    dispatchLoop dir oracle interval rest results1 step.2 count1 writes1

/-- The output of one run of `main` past the column-resolution phase. -/
structure RunOutput where
  results : List FetchResult
  fs : FS
  summaryWrites : List (List FetchResult)
  dispatched : List String
deriving Repr, DecidableEq

/-- The summary pass of `main`: with a non-empty set of prior results,
keep only the identifiers whose string is not among the recorded ones. -/
def pass1Ids (allIds : List String) (existing : List FetchResult) : List String :=
  if existing.isEmpty then allIds
  else allIds.filter (fun kid => ¬ (existing.map (fun r => r.kepler_id)).contains kid)

/-- The results the run starts from: the prior results when any were
loaded, the empty list otherwise. -/
def pass1Results (existing : List FetchResult) : List FetchResult :=
  if existing.isEmpty then [] else existing

/-- The artifact files of the remaining identifiers that already exist on
disk (`files_to_check` filtered by `os.path.exists`). -/
def existingFilesOf (dir : String) (fs : FS) (ids1 : List String) : List String :=
  (ids1.map (fun kid => outputFileName dir kid)).filter (fun f => fsExists f fs)

/-- The on-disk pass of `main`: drop the identifiers recovered from the
names of artifact files that already exist. -/
def pass2Ids (dir : String) (fs : FS) (ids1 : List String) : List String :=
  let existingFiles := existingFilesOf dir fs ids1
  if existingFiles.isEmpty then ids1
  else ids1.filter (fun kid => ¬ (existingFiles.map (fun f => extractId f)).contains kid)

/-- The core of `main` after the identifier column is resolved: load the
prior summary, drop identifiers recorded there, reconcile with artifact
files already on disk (adding a synthetic result for each), dispatch the
remaining identifiers, checkpoint periodically, and write the final
summary. -/
def runCore (allIds : List String) (prior : PriorSummary) (dir : String)
    (fs : FS) (oracle : String → FetchOutcome) (interval : Nat) : RunOutput :=
  let existing := loadExisting prior
  let ids1 := pass1Ids allIds existing
  let results0 := pass1Results existing
  let existingFiles := existingFilesOf dir fs ids1
  let synthetic := existingFiles.map (fun f =>
    { kepler_id := extractId f, success := true, output_file := some f,
      status := "Found existing file" : FetchResult })
  let results1 := results0 ++ synthetic
  let ids2 := pass2Ids dir fs ids1
  let looped := dispatchLoop dir oracle interval ids2 results1 fs 0 []
  { results := looped.1, fs := looped.2.1,
    summaryWrites := looped.2.2 ++ [looped.1], dispatched := ids2 }

/-- The identifier-column resolution of `main`: use the configured column
if present; otherwise print an error naming it and the available
columns and prompt for a substitute; if the substitute is also missing,
print a final message and stop. Returns the resolved column (if any)
and the messages printed. -/
def resolveColumn (cols : List String) (koi_column promptAnswer : String) :
    Option String × List String :=
  if cols.contains koi_column then (some koi_column, [])
  else
    let msgs := ["Column " ++ koi_column ++ " not found in the input CSV.",
                 "Available columns: " ++ String.intercalate ", " cols]
    if cols.contains promptAnswer then (some promptAnswer, msgs)
    else (none, msgs ++ ["Column " ++ promptAnswer ++ " not found. Exiting."])

/-- `main` end to end: resolve the identifier column (stopping the run,
with nothing dispatched, when both the configured column and the
prompted substitute are absent), then run the core. `getIds` gives the
identifier values of the input table under a chosen column. -/
def mainRun (cols : List String) (koi_column promptAnswer : String)
    (getIds : String → List String) (prior : PriorSummary) (dir : String)
    (fs : FS) (oracle : String → FetchOutcome) (interval : Nat) :
    Option RunOutput × List String :=
  match resolveColumn cols koi_column promptAnswer with
  | (none, msgs) => (none, msgs)
  | (some col, msgs) => (some (runCore (getIds col) prior dir fs oracle interval), msgs)

/-- The steps of `standardize_dispositions`' per-file `try` body, after
backup creation, at which an exception can arise: data loading
(`pd.read_csv`), the mapping and distribution checks, the rewrite of the
file, and the verification read-back. -/
inductive ProcStep where
  | load
  | transform
  | write
  | verify
deriving Repr, DecidableEq

/-- The possible outcomes of one `shutil.copy2` call: success, an
exception raised after the destination file was partially written
(leaving it holding the given content), or an exception raised before
the destination file was created. -/
inductive CopyOutcome where
  | ok
  | failPartial (written : String)
  | failClean
deriving Repr, DecidableEq

/-- The state of one processed file: its current content and the content
of its backup copy file, when one is present on disk. -/
structure FileProcState where
  content : String
  backup : Option String
deriving Repr, DecidableEq

/-- The `try` body of `standardize_dispositions` for one file.
`orig` is the file's content on entry; `backupOutcome` is the fate of
the backup `shutil.copy2` (a partial failure leaves a truncated backup
file on disk); `failAt` injects a failure at a later step; `hasUnmapped`
models `unmapped > 0` (warn and `continue`, no rewrite); `newContent` is
the standardized content; `partialContent` is whatever a rewrite
interrupted mid-write leaves behind. Returns the state and whether an
exception escaped the body. -/
def processBody (orig : String) (backupOutcome : CopyOutcome) (failAt : Option ProcStep)
    (hasUnmapped : Bool) (newContent partialContent : String) : FileProcState × Bool :=
  match backupOutcome with
  | .failClean => ({ content := orig, backup := none }, true)
  | .failPartial written => ({ content := orig, backup := some written }, true)
  | .ok =>
    let st1 : FileProcState := { content := orig, backup := some orig }
    if failAt = some ProcStep.load then (st1, true)
    else if failAt = some ProcStep.transform then (st1, true)
    else if hasUnmapped then (st1, false)
    else if failAt = some ProcStep.write then ({ st1 with content := partialContent }, true)
    else
      let st2 : FileProcState := { st1 with content := newContent }
      if failAt = some ProcStep.verify then (st2, true)
      else (st2, false)

/-- One iteration of `standardize_dispositions`: the `try` body followed
by the `except` handler, which copies the backup file over the data file
whenever the backup file exists on disk (`os.path.exists(backup_path)`),
whatever that backup file holds. The restoring `shutil.copy2` is itself
fallible: a partial failure leaves the data file truncated, a clean
failure leaves it as the body left it. -/
def processFile (orig : String) (backupOutcome restoreOutcome : CopyOutcome)
    (failAt : Option ProcStep) (hasUnmapped : Bool)
    (newContent partialContent : String) : FileProcState :=
  let body := processBody orig backupOutcome failAt hasUnmapped newContent partialContent
  if body.2 then
    match body.1.backup with
    | some b =>
      match restoreOutcome with
      | .ok => { body.1 with content := b }
      | .failPartial written => { body.1 with content := written }
      | .failClean => body.1
    | none => body.1
  else body.1

example : pyStrip " 123 " = "123" := by decide
example : pyStrip "123" = "123" := by decide
example : pyReplace "kepler_12_lightkurve.csv" "kepler_" "" = "12_lightkurve.csv" := by decide
example : extractId (outputFileName "d" "12") = "12" := by decide
example : extractId (outputFileName "d" "kepler_5") = "5" := by decide

/-! ## Helper lemmas -/

lemma fsExists_write_self (p c : String) (fs : FS) :
    fsExists p (fsWrite p c fs) = true := by
  simp [fsExists, fsWrite]

lemma fsRead_write_self (p c : String) (fs : FS) :
    fsRead p (fsWrite p c fs) = some c := by
  simp [fsRead, fsWrite, List.find?]

lemma append_ne_empty (a b : String) (h : a ≠ "") : a ++ b ≠ "" := by
  intro hab
  apply h
  have hlen := congrArg String.length hab
  rw [String.length_append] at hlen
  have hz : ("" : String).length = 0 := rfl
  rw [hz] at hlen
  have ha : a.length = 0 := by omega
  cases a with
  | mk d =>
    cases d with
    | nil => rfl
    | cons c cs => simp [String.length] at ha

/-- The worker's status string is one of four shapes. -/
lemma download_status_cases (id dir : String) (fs : FS) (oracle : String → FetchOutcome) :
    (download_lightkurve_data id dir fs oracle).1.status = "Skipped (already exists)" ∨
    (download_lightkurve_data id dir fs oracle).1.status = "No light curve found" ∨
    (download_lightkurve_data id dir fs oracle).1.status = "Downloaded" ∨
    ∃ e, (download_lightkurve_data id dir fs oracle).1.status = "Error: " ++ e := by
  unfold download_lightkurve_data download_body
  by_cases hex : fsExists (outputFileName dir (pyStrip id)) fs
  · simp [hex]
  · cases horc : oracle (pyStrip id) <;> simp [hex, horc]

/-- The worker's result always carries the stripped identifier. -/
lemma download_kepler_id (id dir : String) (fs : FS) (oracle : String → FetchOutcome) :
    (download_lightkurve_data id dir fs oracle).1.kepler_id = pyStrip id := by
  unfold download_lightkurve_data download_body
  by_cases h : fsExists (outputFileName dir (pyStrip id)) fs
  · simp [h]
  · cases horc : oracle (pyStrip id) <;> simp [h, horc]

/-! ## Claim theorems -/

/-- C1: for every identifier and output directory, the worker returns
exactly one FetchResult; any exception escaping the try body is captured
by the handler and turned into a result with success = false and the
descriptive status string built from the exception message, and every
failure result carries a non-empty status. -/
theorem worker_contains_failures (id dir : String) (fs : FS)
    (oracle : String → FetchOutcome) :
    (∀ e, download_body id dir fs oracle = .error e →
      download_lightkurve_data id dir fs oracle =
        ({ kepler_id := pyStrip id, success := false, output_file := none,
           status := "Error: " ++ e }, fs)) ∧
    ((download_lightkurve_data id dir fs oracle).1.success = false →
      (download_lightkurve_data id dir fs oracle).1.status ≠ "") := by
  constructor
  · intro e he
    simp [download_lightkurve_data, he]
  · intro hs
    rcases download_status_cases id dir fs oracle with h | h | h | ⟨e, h⟩ <;> rw [h]
    · decide
    · decide
    · decide
    · exact append_ne_empty "Error: " e (by decide)

/-- C1 witness: a worker whose fetch raises returns the captured failure
result with a non-empty status. -/
theorem worker_contains_failures_witness :
    download_lightkurve_data "7" "d" [] (fun _ => FetchOutcome.exn "boom") =
      ({ kepler_id := "7", success := false, output_file := none,
         status := "Error: boom" }, []) ∧
    (download_lightkurve_data "7" "d" [] (fun _ => FetchOutcome.exn "boom")).1.status ≠ "" := by
  have h := worker_contains_failures "7" "d" [] (fun _ => FetchOutcome.exn "boom")
  exact ⟨h.1 "boom" rfl, h.2 (by decide)⟩

/-- C2 counterexample: when the artifact file already exists, the second
call reports status "Skipped (already exists)" with a capital S, not the
claimed string "skipped (already exists)". -/
theorem worker_skip_status_counterexample :
    (download_lightkurve_data "7" "d" [(outputFileName "d" "7", "c")]
      (fun _ => FetchOutcome.notFound)).1.success = true ∧
    (download_lightkurve_data "7" "d" [(outputFileName "d" "7", "c")]
      (fun _ => FetchOutcome.notFound)).1.status = "Skipped (already exists)" ∧
    "Skipped (already exists)" ≠ "skipped (already exists)" := by
  refine ⟨by decide, by decide, by decide⟩

/-- C2 (amended): the worker is idempotent. A first call that downloads
writes the artifact exactly once; a second call for the same identifier
then short-circuits for every oracle, returning success = true with
status "Skipped (already exists)", touching neither the filesystem nor
the artifact's content. -/
theorem worker_idempotent_skip (id dir data : String) (fs : FS)
    (oracle oracle2 : String → FetchOutcome)
    (hne : fsExists (outputFileName dir (pyStrip id)) fs = false)
    (hor : oracle (pyStrip id) = FetchOutcome.found data) :
    download_lightkurve_data id dir fs oracle =
      ({ kepler_id := pyStrip id, success := true,
         output_file := some (outputFileName dir (pyStrip id)), status := "Downloaded" },
       fsWrite (outputFileName dir (pyStrip id)) (csvContent data (pyStrip id)) fs) ∧
    fsRead (outputFileName dir (pyStrip id))
        (download_lightkurve_data id dir fs oracle).2 =
      some (csvContent data (pyStrip id)) ∧
    download_lightkurve_data id dir (download_lightkurve_data id dir fs oracle).2 oracle2 =
      ({ kepler_id := pyStrip id, success := true,
         output_file := some (outputFileName dir (pyStrip id)),
         status := "Skipped (already exists)" },
       (download_lightkurve_data id dir fs oracle).2) := by
  have h1 : download_lightkurve_data id dir fs oracle =
      ({ kepler_id := pyStrip id, success := true,
         output_file := some (outputFileName dir (pyStrip id)), status := "Downloaded" },
       fsWrite (outputFileName dir (pyStrip id)) (csvContent data (pyStrip id)) fs) := by
    unfold download_lightkurve_data download_body
    simp [hne, hor]
  refine ⟨h1, ?_, ?_⟩
  · rw [h1]
    exact fsRead_write_self _ _ _
  · rw [h1]
    unfold download_lightkurve_data download_body
    simp [fsExists_write_self]

/-- C2 witness: concrete first download then skip. -/
theorem worker_idempotent_skip_witness :
    fsExists (outputFileName "d" (pyStrip "7")) ([] : FS) = false ∧
    download_lightkurve_data "7" "d"
        (download_lightkurve_data "7" "d" [] (fun _ => FetchOutcome.found "x")).2
        (fun _ => FetchOutcome.notFound) =
      ({ kepler_id := pyStrip "7", success := true,
         output_file := some (outputFileName "d" (pyStrip "7")),
         status := "Skipped (already exists)" },
       (download_lightkurve_data "7" "d" [] (fun _ => FetchOutcome.found "x")).2) := by
  have h := worker_idempotent_skip "7" "d" "x" [] (fun _ => FetchOutcome.found "x")
    (fun _ => FetchOutcome.notFound) (by decide) rfl
  exact ⟨by decide, h.2.2⟩

/-- C9: every result produced by the worker, and every result produced by
the dispatcher's exception fallback, has success = true exactly when its
output_file is non-null. -/
theorem success_iff_output_file (id dir : String) (fs : FS)
    (oracle : String → FetchOutcome) (kid msg : String) :
    ((download_lightkurve_data id dir fs oracle).1.success = true ↔
      (download_lightkurve_data id dir fs oracle).1.output_file ≠ none) ∧
    ((dispatcherFallback kid msg).success = true ↔
      (dispatcherFallback kid msg).output_file ≠ none) := by
  constructor
  · unfold download_lightkurve_data download_body
    by_cases hex : fsExists (outputFileName dir (pyStrip id)) fs
    · simp [hex]
    · cases horc : oracle (pyStrip id) <;> simp [hex, horc]
  · simp [dispatcherFallback]

/-- C10: a summary file that exists but cannot be parsed is treated
exactly like an absent one: the run loads an empty set of prior results,
skips no identifier via the summary pass, and otherwise proceeds
identically to a fresh run. -/
theorem unparsable_summary_starts_fresh (allIds : List String) (dir : String) (fs : FS)
    (oracle : String → FetchOutcome) (interval : Nat) (e : String) :
    runCore allIds (some (.error e)) dir fs oracle interval =
      runCore allIds none dir fs oracle interval ∧
    loadExisting (some (.error e)) = [] :=
  ⟨rfl, rfl⟩

/-- C3 counterexample, two failure modes of the claim as stated. First,
at input ["1", "2"] with an artifact on disk for "2", the work-list is
["1"] but no entry of the final summary carries the claimed lowercase
status "found existing file" (the code capitalizes it). Second, at input
["1", "kepler_5"] with an artifact on disk for "kepler_5", the chained
replace of the filename scan extracts "5" instead of "kepler_5", so the
work-list is ["1", "kepler_5"] rather than exactly ["1"], and the
synthetic entry records the mangled identifier "5", never "kepler_5". -/
theorem disk_precedence_status_counterexample :
    ((runCore ["1", "2"] none "d" [(outputFileName "d" "2", "x")]
        (fun _ => FetchOutcome.notFound) 50).dispatched = ["1"] ∧
     ∀ r ∈ (runCore ["1", "2"] none "d" [(outputFileName "d" "2", "x")]
        (fun _ => FetchOutcome.notFound) 50).results,
      r.status ≠ "found existing file") ∧
    ((runCore ["1", "kepler_5"] none "d" [(outputFileName "d" "kepler_5", "x")]
        (fun _ => FetchOutcome.notFound) 50).dispatched = ["1", "kepler_5"] ∧
     ({ kepler_id := "5", success := true,
        output_file := some (outputFileName "d" "kepler_5"),
        status := "Found existing file" } : FetchResult) ∈
      (runCore ["1", "kepler_5"] none "d" [(outputFileName "d" "kepler_5", "x")]
        (fun _ => FetchOutcome.notFound) 50).results ∧
     ∀ r ∈ (runCore ["1", "kepler_5"] none "d" [(outputFileName "d" "kepler_5", "x")]
        (fun _ => FetchOutcome.notFound) 50).results,
      ¬ (r.kepler_id = "kepler_5" ∧ r.status = "Found existing file")) := by
  refine ⟨⟨by decide, by decide⟩, by decide, by decide, by decide⟩

/-- C3 (amended): on-disk state takes precedence over the summary. For an
input list [A, B] with no prior summary but an existing artifact file
for B, provided B is recoverable from its artifact file name (not
mangled by the replace-based extraction), the work-list builder produces
exactly [A], and the final summary contains a synthetic entry for B with
success = true and status "Found existing file". -/
theorem disk_precedence (A B dir : String) (fs : FS) (oracle : String → FetchOutcome)
    (interval : Nat) (hAB : A ≠ B)
    (hA : fsExists (outputFileName dir A) fs = false)
    (hB : fsExists (outputFileName dir B) fs = true)
    (heB : extractId (outputFileName dir B) = B) :
    (runCore [A, B] none dir fs oracle interval).dispatched = [A] ∧
    ({ kepler_id := B, success := true, output_file := some (outputFileName dir B),
       status := "Found existing file" } : FetchResult) ∈
      (runCore [A, B] none dir fs oracle interval).results := by
  unfold runCore
  simp [loadExisting, pass1Ids, pass1Results, existingFilesOf, pass2Ids,
    List.filter, hA, hB, heB, hAB, dispatchLoop]

/-- Membership in the on-disk pass output implies membership in its
input. -/
lemma pass2Ids_subset (dir : String) (fs : FS) (ids1 : List String) :
    ∀ kid ∈ pass2Ids dir fs ids1, kid ∈ ids1 := by
  intro kid hmem
  simp only [pass2Ids] at hmem
  split at hmem
  · exact hmem
  · exact (List.mem_filter.mp hmem).1

/-- With a non-empty prior, the summary pass removes exactly the
identifiers recorded there. -/
lemma pass1Ids_not_prior (allIds : List String) (ex : List FetchResult) (hex : ex ≠ []) :
    ∀ kid ∈ pass1Ids allIds ex, kid ∉ ex.map (fun r => r.kepler_id) := by
  intro kid h1 habs
  have hne : ¬ (ex.isEmpty = true) := by simpa [List.isEmpty_eq_true] using hex
  unfold pass1Ids at h1
  rw [if_neg hne] at h1
  rcases List.mem_filter.mp h1 with ⟨h2, h3⟩
  simp only [decide_eq_true_eq] at h3
  exact h3 (List.elem_iff.mpr habs)

/-- Every identifier dispatched by a resumed run with a non-empty parsed
prior summary is absent from the prior summary's identifiers. -/
lemma dispatched_not_in_prior (allIds : List String) (ex : List FetchResult)
    (dir : String) (fs : FS) (oracle : String → FetchOutcome) (interval : Nat)
    (hex : ex ≠ []) :
    ∀ kid ∈ (runCore allIds (some (.ok ex)) dir fs oracle interval).dispatched,
      kid ∉ ex.map (fun r => r.kepler_id) := by
  intro kid hmem
  have hmem2 : kid ∈ pass2Ids dir fs (pass1Ids allIds ex) := hmem
  exact pass1Ids_not_prior allIds ex hex kid (pass2Ids_subset dir fs _ kid hmem2)

/-- C4: resume correctness. With a prior summary holding results for A
and B and the input list [A, B, C], the work-list builder produces
exactly [C]; moreover every dispatched identifier of any resumed run is
removed by string equality against the prior summary's identifiers. -/
theorem resume_worklist (A B C dir : String) (fs : FS) (oracle : String → FetchOutcome)
    (interval : Nat) (rA rB : FetchResult)
    (hA : rA.kepler_id = A) (hB : rB.kepler_id = B)
    (hCA : C ≠ A) (hCB : C ≠ B)
    (hCf : fsExists (outputFileName dir C) fs = false) :
    (runCore [A, B, C] (some (.ok [rA, rB])) dir fs oracle interval).dispatched = [C] ∧
    ∀ (allIds : List String) (ex : List FetchResult), ex ≠ [] →
      ∀ kid ∈ (runCore allIds (some (.ok ex)) dir fs oracle interval).dispatched,
        kid ∉ ex.map (fun r => r.kepler_id) := by
  constructor
  · unfold runCore
    simp [loadExisting, pass1Ids, pass1Results, existingFilesOf, pass2Ids,
      List.filter, hA, hB, hCA, hCB, hCf]
  · intro allIds ex hex
    exact dispatched_not_in_prior allIds ex dir fs oracle interval hex

/-- C6: checkpointing. The default interval is 50; with interval 2 and a
work-list of 5 identifiers the run writes the summary file three times:
two intermediate checkpoints holding 2 and 4 results (after the 2nd and
4th completions), then the final write holding all 5. -/
theorem checkpoint_writes (kids : List String) (dir : String) (fs : FS)
    (oracle : String → FetchOutcome) (h5 : kids.length = 5)
    (hno : ∀ kid ∈ kids, fsExists (outputFileName dir kid) fs = false) :
    save_interval = 50 ∧
    ((runCore kids none dir fs oracle 2).summaryWrites).map List.length = [2, 4, 5] := by
  refine ⟨rfl, ?_⟩
  rcases kids with _ | ⟨a, kids⟩
  · simp at h5
  rcases kids with _ | ⟨b, kids⟩
  · simp at h5
  rcases kids with _ | ⟨c, kids⟩
  · simp at h5
  rcases kids with _ | ⟨d, kids⟩
  · simp at h5
  rcases kids with _ | ⟨e, kids⟩
  · simp at h5
  rcases kids with _ | ⟨f, kids⟩
  · have ha := hno a (by simp)
    have hb := hno b (by simp)
    have hc := hno c (by simp)
    have hd := hno d (by simp)
    have he := hno e (by simp)
    unfold runCore
    simp [loadExisting, pass1Ids, pass1Results, existingFilesOf, pass2Ids,
      List.filter, ha, hb, hc, hd, he, dispatchLoop]
  · simp at h5

/-- C6 witness: a concrete 5-identifier run with interval 2. -/
theorem checkpoint_writes_witness :
    (["1", "2", "3", "4", "5"] : List String).length = 5 ∧
    ((runCore ["1", "2", "3", "4", "5"] none "d" []
        (fun _ => FetchOutcome.notFound) 2).summaryWrites).map List.length = [2, 4, 5] :=
  ⟨by decide,
   (checkpoint_writes ["1", "2", "3", "4", "5"] "d" [] (fun _ => FetchOutcome.notFound)
     (by decide) (by decide)).2⟩

/-- C7: missing-column handling. When the configured identifier column is
absent, the run prints an error naming it together with the available
columns and prompts for a substitute; if the substitute is also absent
the run returns before any work is dispatched, and if the substitute is
present the run proceeds using it. -/
theorem missing_column_fail_fast (cols : List String) (koi_column promptAnswer : String)
    (getIds : String → List String) (prior : PriorSummary) (dir : String) (fs : FS)
    (oracle : String → FetchOutcome) (interval : Nat)
    (hdef : cols.contains koi_column = false) :
    (cols.contains promptAnswer = false →
      mainRun cols koi_column promptAnswer getIds prior dir fs oracle interval =
        (none, ["Column " ++ koi_column ++ " not found in the input CSV.",
                "Available columns: " ++ String.intercalate ", " cols,
                "Column " ++ promptAnswer ++ " not found. Exiting."])) ∧
    (cols.contains promptAnswer = true →
      (mainRun cols koi_column promptAnswer getIds prior dir fs oracle interval).1 =
        some (runCore (getIds promptAnswer) prior dir fs oracle interval)) := by
  have hdef2 : koi_column ∉ cols := by simpa using hdef
  constructor <;> intro hp
  · have hp2 : promptAnswer ∉ cols := by simpa using hp
    simp [mainRun, resolveColumn, hdef2, hp2]
  · have hp2 : promptAnswer ∈ cols := by simpa using hp
    simp [mainRun, resolveColumn, hdef2, hp2]

/-- C7 witness: concrete missing column and missing substitute. -/
theorem missing_column_fail_fast_witness :
    (["a", "b"] : List String).contains "kepid" = false ∧
    mainRun ["a", "b"] "kepid" "c" (fun _ => []) none "d" []
        (fun _ => FetchOutcome.notFound) 50 =
      (none, ["Column kepid not found in the input CSV.",
              "Available columns: a, b",
              "Column c not found. Exiting."]) :=
  ⟨by decide,
   (missing_column_fail_fast ["a", "b"] "kepid" "c" (fun _ => []) none "d" []
     (fun _ => FetchOutcome.notFound) 50 (by decide)).1 (by decide)⟩

/-- C8 counterexample: when the backup `shutil.copy2` raises after
partially writing the backup file, the `except` handler sees
`os.path.exists(backup_path)` true and copies the partial backup over
the intact original, so the file is not unchanged on this failure path. -/
theorem backup_restore_counterexample :
    (processFile "orig" (CopyOutcome.failPartial "jun") CopyOutcome.ok none false
      "new" "p").content = "jun" ∧
    "jun" ≠ "orig" := by
  refine ⟨rfl, by decide⟩

/-- C8 (amended): backup/restore in `standardize_dispositions`, provided
the backup copy does not fail after partially writing the backup file
and the restoring copy succeeds. Whenever the backup succeeds it holds
the original content before any rewrite; a failure injected at any
later step (and the unmapped-values skip path), as well as a clean
backup failure, leaves the file holding its original content; the
destructive rewrite only takes effect on the fully successful path. -/
theorem backup_restore_unchanged_on_error (orig newContent partialContent : String)
    (backupOutcome restoreOutcome : CopyOutcome)
    (failAt : Option ProcStep) (hasUnmapped : Bool)
    (hb : ∀ w, backupOutcome ≠ CopyOutcome.failPartial w)
    (hr : restoreOutcome = CopyOutcome.ok) :
    ((failAt ≠ none ∨ hasUnmapped = true ∨ backupOutcome = CopyOutcome.failClean) →
      (processFile orig backupOutcome restoreOutcome failAt hasUnmapped
        newContent partialContent).content = orig) ∧
    (backupOutcome = CopyOutcome.ok →
      (processFile orig backupOutcome restoreOutcome failAt hasUnmapped
        newContent partialContent).backup = some orig) ∧
    (backupOutcome = CopyOutcome.ok ∧ failAt = none ∧ hasUnmapped = false →
      (processFile orig backupOutcome restoreOutcome failAt hasUnmapped
        newContent partialContent).content = newContent) := by
  subst hr
  rcases backupOutcome with _ | w | _
  · rcases failAt with _ | s
    · cases hasUnmapped <;> simp [processFile, processBody]
    · rcases s <;> cases hasUnmapped <;> simp [processFile, processBody]
  · exact absurd rfl (hb w)
  · simp [processFile, processBody]

/-- C8 witness: the backup succeeds and a failure during the
verification read-back leaves the file holding its original content,
restored from the backup. -/
theorem backup_restore_witness :
    (∀ w, CopyOutcome.ok ≠ CopyOutcome.failPartial w) ∧
    (processFile "orig" CopyOutcome.ok CopyOutcome.ok (some ProcStep.verify) false
      "new" "p").content = "orig" ∧
    (processFile "orig" CopyOutcome.ok CopyOutcome.ok (some ProcStep.verify) false
      "new" "p").backup = some "orig" := by
  have h := backup_restore_unchanged_on_error "orig" "new" "p" CopyOutcome.ok CopyOutcome.ok
    (some ProcStep.verify) false (fun w hw => CopyOutcome.noConfusion hw) rfl
  exact ⟨fun w hw => CopyOutcome.noConfusion hw, h.1 (Or.inl (by decide)), h.2.1 rfl⟩

/-- The dispatch loop appends exactly one result per identifier, carrying
the stripped identifier. -/
lemma dispatchLoop_map_id (dir : String) (oracle : String → FetchOutcome) (interval : Nat) :
    ∀ (kids : List String) (results : List FetchResult) (fs : FS) (count : Nat)
      (writes : List (List FetchResult)),
      ((dispatchLoop dir oracle interval kids results fs count writes).1).map
          (fun r => r.kepler_id) =
        results.map (fun r => r.kepler_id) ++ kids.map pyStrip := by
  intro kids
  induction kids with
  | nil =>
    intro results fs count writes
    simp [dispatchLoop]
  | cons k rest ih =>
    intro results fs count writes
    simp only [dispatchLoop]
    rw [ih]
    simp [download_kepler_id]

/-- The identifiers of the final summary decompose into the prior pass,
the synthetic file entries, and the dispatched identifiers stripped. -/
lemma runCore_results_ids (allIds : List String) (ex : List FetchResult) (dir : String)
    (fs : FS) (oracle : String → FetchOutcome) (interval : Nat) :
    (runCore allIds (some (.ok ex)) dir fs oracle interval).results.map
        (fun r => r.kepler_id) =
      (pass1Results ex).map (fun r => r.kepler_id) ++
      (existingFilesOf dir fs (pass1Ids allIds ex)).map (fun f => extractId f) ++
      (pass2Ids dir fs (pass1Ids allIds ex)).map pyStrip := by
  have h : (runCore allIds (some (.ok ex)) dir fs oracle interval).results =
      (dispatchLoop dir oracle interval (pass2Ids dir fs (pass1Ids allIds ex))
        (pass1Results ex ++ (existingFilesOf dir fs (pass1Ids allIds ex)).map (fun f =>
          { kepler_id := extractId f, success := true, output_file := some f,
            status := "Found existing file" : FetchResult })) fs 0 []).1 := rfl
  rw [h, dispatchLoop_map_id, List.map_append, List.map_map, List.append_assoc,
    List.append_assoc]
  rfl

/-- C5 counterexample: run 1 downloads identifier "123"; a resumed run 2
whose input list is the single (hence duplicate-free) identifier "123 "
(trailing space) is not skipped by the summary pass, but the worker
strips it and records "123" again, so the final persisted summary holds
the identifier "123" twice. -/
theorem summary_duplicate_counterexample :
    (["123 "] : List String).Nodup ∧
    ((runCore ["123 "]
        (some (.ok (runCore ["123"] none "d" [] (fun _ => FetchOutcome.found "x") 50).results))
        "d" (runCore ["123"] none "d" [] (fun _ => FetchOutcome.found "x") 50).fs
        (fun _ => FetchOutcome.found "x") 50).results.map (fun r => r.kepler_id)) =
      ["123", "123"] ∧
    ¬ ((runCore ["123 "]
        (some (.ok (runCore ["123"] none "d" [] (fun _ => FetchOutcome.found "x") 50).results))
        "d" (runCore ["123"] none "d" [] (fun _ => FetchOutcome.found "x") 50).fs
        (fun _ => FetchOutcome.found "x") 50).results.map (fun r => r.kepler_id)).Nodup := by
  refine ⟨by decide, by decide, by decide⟩

/-- C5 (amended): no identifier appears twice in the final persisted
summary of a resumed run, provided the input identifiers are
duplicate-free and normalization-stable (each equal to its stripped form
and recoverable from its artifact file name) and the prior summary's
identifiers are themselves duplicate-free. -/
theorem summary_nodup (allIds : List String) (ex : List FetchResult) (dir : String)
    (fs : FS) (oracle : String → FetchOutcome) (interval : Nat)
    (hin : allIds.Nodup)
    (hexnd : (ex.map (fun r => r.kepler_id)).Nodup)
    (hclean : ∀ kid ∈ allIds, pyStrip kid = kid ∧ extractId (outputFileName dir kid) = kid) :
    ((runCore allIds (some (.ok ex)) dir fs oracle interval).results.map
      (fun r => r.kepler_id)).Nodup := by
  rw [runCore_results_ids]
  have hids1sub : ∀ kid ∈ pass1Ids allIds ex, kid ∈ allIds := by
    intro kid h
    unfold pass1Ids at h
    split at h
    · exact h
    · exact (List.mem_filter.mp h).1
  have hids1nd : (pass1Ids allIds ex).Nodup := by
    unfold pass1Ids
    split
    · exact hin
    · exact hin.filter _
  have heF : existingFilesOf dir fs (pass1Ids allIds ex) =
      ((pass1Ids allIds ex).filter
        (fun kid => fsExists (outputFileName dir kid) fs)).map
        (fun kid => outputFileName dir kid) := by
    unfold existingFilesOf
    exact List.filter_map _ _
  have heFids : (existingFilesOf dir fs (pass1Ids allIds ex)).map (fun f => extractId f) =
      (pass1Ids allIds ex).filter (fun kid => fsExists (outputFileName dir kid) fs) := by
    rw [heF, List.map_map]
    conv_rhs => rw [← List.map_id ((pass1Ids allIds ex).filter
      (fun kid => fsExists (outputFileName dir kid) fs))]
    apply List.map_congr_left
    intro kid hk
    exact (hclean kid (hids1sub kid (List.mem_of_mem_filter hk))).2
  set F0 := (pass1Ids allIds ex).filter (fun kid => fsExists (outputFileName dir kid) fs)
    with hF0def
  have hids2 : ∀ kid, kid ∈ pass2Ids dir fs (pass1Ids allIds ex) →
      kid ∈ pass1Ids allIds ex ∧ kid ∉ F0 := by
    intro kid h
    simp only [pass2Ids] at h
    split at h
    case isTrue hempty =>
      refine ⟨h, ?_⟩
      have h1 : existingFilesOf dir fs (pass1Ids allIds ex) = [] := by
        simpa [List.isEmpty_eq_true] using hempty
      rw [heF] at h1
      have h2 : F0 = [] := List.map_eq_nil_iff.mp h1
      rw [h2]
      simp
    case isFalse hne =>
      rcases List.mem_filter.mp h with ⟨h1, h2⟩
      simp only [decide_eq_true_eq] at h2
      refine ⟨h1, ?_⟩
      intro habs
      apply h2
      rw [heFids]
      exact List.elem_iff.mpr habs
  have hW : (pass2Ids dir fs (pass1Ids allIds ex)).map pyStrip =
      pass2Ids dir fs (pass1Ids allIds ex) := by
    conv_rhs => rw [← List.map_id (pass2Ids dir fs (pass1Ids allIds ex))]
    apply List.map_congr_left
    intro kid hk
    exact (hclean kid (hids1sub kid (pass2Ids_subset dir fs _ kid hk))).1
  rw [heFids, hW, List.append_assoc, List.nodup_append]
  refine ⟨?_, ?_, ?_⟩
  · unfold pass1Results
    split
    · simp
    · exact hexnd
  · rw [List.nodup_append]
    refine ⟨hids1nd.filter _, ?_, ?_⟩
    · simp only [pass2Ids]
      split
      · exact hids1nd
      · exact hids1nd.filter _
    · intro x hxF hx2
      exact (hids2 x hx2).2 hxF
  · intro x hxP hx
    unfold pass1Results at hxP
    by_cases hempty : ex.isEmpty
    · rw [if_pos hempty] at hxP
      simp at hxP
    · rw [if_neg hempty] at hxP
      have hx1 : x ∈ pass1Ids allIds ex := by
        rcases List.mem_append.mp hx with h | h
        · exact List.mem_of_mem_filter h
        · exact pass2Ids_subset dir fs _ x h
      have hexne : ex ≠ [] := fun hnil => hempty (by simp [hnil])
      exact pass1Ids_not_prior allIds ex hexne x hx1 hxP

/-- C5 witness: a concrete resumed run with clean identifiers. -/
theorem summary_nodup_witness :
    (["1", "2"] : List String).Nodup ∧
    ((runCore ["1", "2"]
        (some (.ok [{ kepler_id := "3", success := true, output_file := some "f",
                      status := "Downloaded" }]))
        "d" [] (fun _ => FetchOutcome.notFound) 50).results.map
      (fun r => r.kepler_id)).Nodup :=
  ⟨by decide,
   summary_nodup ["1", "2"]
     [{ kepler_id := "3", success := true, output_file := some "f", status := "Downloaded" }]
     "d" [] (fun _ => FetchOutcome.notFound) 50 (by decide) (by decide) (by decide)⟩

/-- C3 witness: concrete input ["1", "2"] with an artifact on disk for
"2" only. -/
theorem disk_precedence_witness :
    ("1" : String) ≠ "2" ∧
    (runCore ["1", "2"] none "d" [(outputFileName "d" "2", "x")]
      (fun _ => FetchOutcome.notFound) 50).dispatched = ["1"] ∧
    ({ kepler_id := "2", success := true, output_file := some (outputFileName "d" "2"),
       status := "Found existing file" } : FetchResult) ∈
      (runCore ["1", "2"] none "d" [(outputFileName "d" "2", "x")]
        (fun _ => FetchOutcome.notFound) 50).results := by
  have h := disk_precedence "1" "2" "d" [(outputFileName "d" "2", "x")]
    (fun _ => FetchOutcome.notFound) 50 (by decide) (by decide) (by decide) (by decide)
  exact ⟨by decide, h.1, h.2⟩

/-- C4 witness: prior summary for "1" and "2", input ["1", "2", "3"]. -/
theorem resume_worklist_witness :
    (runCore ["1", "2", "3"]
        (some (.ok [{ kepler_id := "1", success := true, output_file := some "f1",
                      status := "Downloaded" },
                    { kepler_id := "2", success := false, output_file := none,
                      status := "No light curve found" }]))
        "d" [] (fun _ => FetchOutcome.notFound) 50).dispatched = ["3"] := by
  have h := resume_worklist "1" "2" "3" "d" [] (fun _ => FetchOutcome.notFound) 50
    { kepler_id := "1", success := true, output_file := some "f1", status := "Downloaded" }
    { kepler_id := "2", success := false, output_file := none,
      status := "No light curve found" }
    rfl rfl (by decide) (by decide) (by decide)
  exact h.1
